import Mathlib

/-!
Verification of the token lifecycle and rotation engine of the
vault-plugin-secrets-grafana-cloud repository, as a shallow embedding of
its Go sources.  Pure data is embedded as Lean structures; the stateful
handlers are embedded as functions from an explicit store (the mount's
key/value storage) and an environment (the upstream HTTP oracle, clock
values, and the credential codec) to a result, a final store and a trace
of upstream operations.  Machine times and durations are modelled as
integers.
-/

namespace GrafanaCloud

/-- Embedded metadata of a decoded root credential (client.go, type Metadata). -/
structure Metadata where
  region : String
deriving DecidableEq, Repr

/-- A decoded root credential (client.go, type GrafanaToken): organization,
embedded token name, key material and region metadata. -/
structure GrafanaToken where
  organization : String
  tokenName : String
  k : String
  metadata : Metadata
deriving DecidableEq, Repr

/-- Body of an upstream create-token call (client.go, type CreateTokenRequest). -/
structure CreateTokenRequest where
  accessPolicyID : String
  name : String
  displayName : String
  expiresAt : Int
deriving DecidableEq, Repr

/-- An upstream token record (client.go, type TokenResponse); only the fields
the handlers read are embedded. -/
structure TokenResponse where
  id : String
  accessPolicyID : String
  name : String
  displayName : String
  expiresAt : Int
  token : String
deriving DecidableEq, Repr

/-- Structured upstream error body (client.go, type GrafanaAPIError). -/
structure GrafanaAPIError where
  code : String
  message : String
deriving DecidableEq, Repr

/-- The persisted root configuration (path_config_token.go, current era,
type accessTokenConfig): upstream token id, raw token, access policy id. -/
structure accessTokenConfig where
  tokenID : String
  token : String
  accessPolicyID : String
deriving DecidableEq, Repr

deriving instance DecidableEq for Except

/-- Outcome of one upstream HTTP exchange as seen by the client wrapper:
either a transport failure, or a response with a status code, a decoded
error body (when one can be decoded) and a decoded list of token items
(meaningful for token-list responses). -/
inductive HttpResult where
  | transportError (msg : String)
  | response (status : Nat) (errorBody : Except String GrafanaAPIError)
      (items : List TokenResponse)
deriving DecidableEq, Repr

/-- client.go, performGrafanaAPIOperation (current era): a transport error is
wrapped; a status other than 200, 204 and 404 decodes the error body into a
structured code/message error; 200, 204 and 404 pass through as success. -/
def performGrafanaAPIOperation (url : String) (r : HttpResult) :
    Except String (Nat × List TokenResponse) :=
  match r with
  | .transportError m => .error ("error attempting request: " ++ m)
  | .response status errorBody items =>
    if status ≠ 200 ∧ status ≠ 204 ∧ status ≠ 404 then
      match errorBody with
      | .error e => .error ("error decoding error response from grafana cloud: " ++ e)
      | .ok ge =>
        .error ("error returned from grafana at url " ++ url ++ " code: "
          ++ ge.code ++ ", err: " ++ ge.message)
    else
      .ok (status, items)

/-- URL of the token-by-name query issued by GetTokenByName, with the region
query parameter appended by performGrafanaAPIOperation. -/
def tokensQueryURL (name region : String) : String :=
  "https://grafana.com/api/v1/tokens?name=" ++ name ++ "&region=" ++ region

/-- client.go, GetTokenByName (current era): query the token list filtered by
name; any count of returned items other than exactly one is an error. -/
def GetTokenByName (name region : String) (r : HttpResult) :
    Except String TokenResponse :=
  match performGrafanaAPIOperation (tokensQueryURL name region) r with
  | .error e => .error e
  | .ok (_, items) =>
    match items with
    | [t] => .ok t
    | _ => .error ("found an unexpected number of tokens with name " ++ name)

/-- client.go, DeleteToken (current era): DELETE on the id-keyed token URL;
the result classification is entirely performGrafanaAPIOperation. -/
def DeleteToken (id region : String) (r : HttpResult) : Except String Unit :=
  match performGrafanaAPIOperation
      ("https://grafana.com/api/v1/tokens/" ++ id ++ "?region=" ++ region) r with
  | .error e => .error e
  | .ok _ => .ok ()

/-- Upstream server behaviour of the delete-token endpoint: deleting an
existing record answers 200, deleting an absent record answers 404, in both
cases with no meaningful body. -/
def upstreamDeleteResponse (present : Bool) : HttpResult :=
  if present then .response 200 (.ok ⟨"", ""⟩) []
  else .response 404 (.ok ⟨"", ""⟩) []

/-- One revoke round-trip against an upstream state holding the ids of the
live token records: the client issues DeleteToken for the given path key and
the server removes every record whose id matches it. -/
def revokeUpstream (state : List String) (region pathKey : String) :
    Except String Unit × List String :=
  (DeleteToken pathKey region (upstreamDeleteResponse (state.contains pathKey)),
   state.filter (fun x => x != pathKey))

/-- Modelled from the spec: the Lease Policy component (the configLease
record written by pathConfigLease and read back by LeaseConfig) is referenced
by the sources but its defining file is not among them.  Per the spec it
holds the operator-configured TTL and MaxTTL durations. -/
structure configLease where
  ttl : Int
  maxTTL : Int
deriving DecidableEq, Repr

/-- Modelled from the spec: the host lease calculation that pathCredRead
delegates to (framework.CalculateTTL of the secret-management host) is an
external collaborator, not part of the sources.  Per the spec, the effective
TTL is computed from the operator-set TTL and MaxTTL with the host defaults
applied when unset, is clamped to the effective maximum, must never be
negative or exceed MaxTTL, and a zero TTL is rejected with an error rather
than yielding an immediately expired token. -/
def calculateTTL (defaultLeaseTTL maxLeaseTTL ttl maxTTL : Int) :
    Except String Int :=
  let effectiveMax := if 0 < maxTTL ∧ maxTTL < maxLeaseTTL then maxTTL else maxLeaseTTL
  let requested := if 0 < ttl then ttl else defaultLeaseTTL
  if effectiveMax ≤ 0 then .error "max TTL must be greater than zero"
  else if requested ≤ 0 then .error "refusing to issue an immediately expired token"
  else .ok (min requested effectiveMax)

/-- cred.go, createTokenName: lowercase the role and append a nanosecond
timestamp suffix. -/
def createTokenName (role : String) (nowNanos : Int) : String :=
  "vault-" ++ role.toLower ++ "-" ++ toString nowNanos

/-- Stored access policy record (path_access_policies.go, type AccessPolicy);
only the fields the handlers read are embedded. -/
structure AccessPolicy where
  id : String
  name : String
deriving DecidableEq, Repr

/-- path_access_policies.go, type accessPolicyEntry. -/
structure accessPolicyEntry where
  policy : AccessPolicy
deriving DecidableEq, Repr

/-- Environment of the rotation handler: the credential codec standing for
DecodeToken (called through createClient inside b.client), the oracle
outcomes of the two upstream calls and of the storage put, and clock values. -/
structure RotateEnv where
  decode : String → Except String GrafanaToken
  createTokenResult : Except String TokenResponse
  putResult : Option String
  deleteResult : Option String
  nowNanos : Int
  now : Int

/-- Events of a rotation run, in the order the handler performs them:
the upstream token mint, the storage write of the new configuration and the
upstream deletion of the old credential. -/
inductive RotateEvent where
  | createdToken (req : CreateTokenRequest)
  | persistedConfig (cfg : accessTokenConfig)
  | deletedOldToken (id : String)
deriving DecidableEq, Repr

/-- Result of a rotation run: a runtime fault (nil dereference), a hard error
returned to the host, a user-facing error response, or success carrying the
new token id and access policy id. -/
inductive RotateResult where
  | fault
  | hardErr (msg : String)
  | errResp (msg : String)
  | ok (id : String) (accessPolicyID : String)
deriving DecidableEq, Repr

/-- A finished rotation run: its result, the final content of the single
configuration slot, and the ordered trace of events. -/
structure RotateRun where
  result : RotateResult
  store : Option accessTokenConfig
  trace : List RotateEvent
deriving DecidableEq, Repr

/-- path_config_rotate_root.go, pathConfigRotateRootUpdate (current era).
Step order of the source: b.client (which reads the configuration and, when
the slot is empty, dereferences the nil record while building the client —
modelled as a fault), the completeness check on accessPolicyID and token,
the upstream mint, the storage write of the new configuration, and only then
the upstream deletion of the old credential; a deletion failure is returned
as an error without touching the already-written configuration. -/
def pathConfigRotateRootUpdate (env : RotateEnv)
    (store : Option accessTokenConfig) : RotateRun :=
  match store with
  | none => ⟨.fault, store, []⟩
  | some currentConfig =>
    match env.decode currentConfig.token with
    | .error e => ⟨.hardErr ("failed to decode tokens: " ++ e), store, []⟩
    | .ok _ =>
      if currentConfig.accessPolicyID = "" ∨ currentConfig.token = "" then
        ⟨.errResp
          "Cannot call config/rotate-root when either accessPolicyID or token is empty",
         store, []⟩
      else
        let createTokenRequest : CreateTokenRequest :=
          ⟨currentConfig.accessPolicyID,
           "vault-mount-config-" ++ toString env.nowNanos,
           "grafana cloud vault mount",
           env.now + 90 * 24 * 60 * 60⟩
        match env.createTokenResult with
        | .error e => ⟨.hardErr e, store, [.createdToken createTokenRequest]⟩
        | .ok newToken =>
          let newConfig : accessTokenConfig :=
            ⟨newToken.id, newToken.token, newToken.accessPolicyID⟩
          match env.putResult with
          | some e =>
            ⟨.hardErr ("error saving new config/root: " ++ e), store,
             [.createdToken createTokenRequest]⟩
          | none =>
            match env.deleteResult with
            | some e =>
              ⟨.hardErr ("error deleting old access key: " ++ e), some newConfig,
               [.createdToken createTokenRequest, .persistedConfig newConfig,
                .deletedOldToken currentConfig.tokenID]⟩
            | none =>
              ⟨.ok newToken.id newToken.accessPolicyID, some newConfig,
               [.createdToken createTokenRequest, .persistedConfig newConfig,
                .deletedOldToken currentConfig.tokenID]⟩

/-- Environment of the issue-credential handler. -/
structure CredEnv where
  decode : String → Except String GrafanaToken
  createTokenResult : Except String TokenResponse
  nowNanos : Int
  now : Int
  defaultLeaseTTL : Int
  maxLeaseTTL : Int

/-- Upstream events of an issue-credential run. -/
inductive CredEvent where
  | createdToken (req : CreateTokenRequest)
deriving DecidableEq, Repr

/-- The secret payload and lease parameters returned by a successful
issue-credential run (cred.go, pathCredRead response). -/
structure CredSecret where
  id : String
  accessPolicyID : String
  token : String
  name : String
  ttl : Int
  maxTTL : Int
  renewable : Bool
deriving DecidableEq, Repr

/-- Result of an issue-credential run. -/
inductive CredResult where
  | fault
  | hardErr (msg : String)
  | errResp (msg : String)
  | ok (secret : CredSecret)
deriving DecidableEq, Repr

/-- cred.go, pathCredRead (current era).  Step order of the source: b.client
(nil-configuration dereference when the slot is empty — modelled as a fault),
LeaseConfig with a zero default, the stored access policy lookup, the host
TTL calculation, the upstream token mint with expiry now plus the effective
TTL, and the lease-bound secret with Renewable set to false. -/
def pathCredRead (env : CredEnv) (store : Option accessTokenConfig)
    (leaseStore : Option configLease) (policyStore : Option accessPolicyEntry)
    (name : String) : CredResult × List CredEvent :=
  match store with
  | none => (.fault, [])
  | some conf =>
    match env.decode conf.token with
    | .error e => (.hardErr ("failed to decode tokens: " ++ e), [])
    | .ok _ =>
      let lease := leaseStore.getD ⟨0, 0⟩
      match policyStore with
      | none => (.errResp ("did not file access policy " ++ name), [])
      | some entry =>
        match calculateTTL env.defaultLeaseTTL env.maxLeaseTTL lease.ttl lease.maxTTL with
        | .error e => (.errResp ("failed to calculate ttl. err: " ++ e), [])
        | .ok ttl =>
          let tokenName := createTokenName name env.nowNanos
          let req : CreateTokenRequest :=
            ⟨entry.policy.id, tokenName, tokenName, env.now + ttl⟩
          match env.createTokenResult with
          | .error e =>
            (.errResp ("err while creating token with role " ++ name
               ++ " from grafana cloud. err: " ++ e),
             [.createdToken req])
          | .ok token =>
            (.ok ⟨token.id, token.accessPolicyID, token.token, token.name,
                  ttl, lease.maxTTL, false⟩,
             [.createdToken req])

/-- The lease-internal bookkeeping stored at issuance and handed back to the
lifecycle handlers (cred.go stores id, access policy id, token and name). -/
structure LeaseInternalData where
  id : Option String
  name : Option String
deriving DecidableEq, Repr

/-- Result of a revoke run. -/
inductive RevokeResult where
  | fault
  | hardErr (msg : String)
  | ok
deriving DecidableEq, Repr

/-- secret_token.go, secretTokenRevoke.  The source builds a client from the
stored configuration (nil dereference when the slot is empty), reads only the
name entry of the lease-internal data, logs it, and passes that same name to
DeleteToken; the id entry is never read.  The upstream is modelled as the
list of ids of the live token records, resolved through revokeUpstream. -/
def secretTokenRevoke (decode : String → Except String GrafanaToken)
    (store : Option accessTokenConfig) (internalData : LeaseInternalData)
    (upstream : List String) : RevokeResult × List String :=
  match store with
  | none => (.fault, upstream)
  | some conf =>
    match decode conf.token with
    | .error e => (.hardErr ("failed to decode tokens: " ++ e), upstream)
    | .ok decoded =>
      match internalData.name with
      | none => (.hardErr "name is missing on the lease", upstream)
      | some name =>
        match revokeUpstream upstream decoded.metadata.region name with
        | (.error e, st) => (.hardErr e, st)
        | (.ok _, st) => (.ok, st)

/-- Upstream events a renew run could issue; the only operation the client
offers for renewal is the expiry rewrite (client.go, UpdateToken). -/
inductive RenewEvent where
  | updatedTokenExpiry (id : String) (expiresAt : Int)
deriving DecidableEq, Repr

/-- The lease parameters returned by a renew run. -/
structure RenewResponse where
  ttl : Int
  maxTTL : Int
deriving DecidableEq, Repr

/-- secret_token.go, secretTokenRenew: read the stored lease policy
(defaulting to the zero configLease), return the lease with TTL and MaxTTL
taken from it.  The source makes no upstream call, so the event trace is
always empty. -/
def secretTokenRenew (leaseStore : Option configLease) :
    RenewResponse × List RenewEvent :=
  let lease := leaseStore.getD ⟨0, 0⟩
  (⟨lease.ttl, lease.maxTTL⟩, [])

/-- Environment of the configure-root-credential write handler: the
credential codec standing for DecodeToken (also called inside createClient)
and the HTTP outcome of the self-lookup GetTokenByName call. -/
structure ConfigWriteEnv where
  decode : String → Except String GrafanaToken
  http : HttpResult

/-- Result of a configuration write run: a user-facing error response or a
silent success (the source returns nil, nil on success). -/
inductive ConfigWriteResult where
  | errResp (msg : String)
  | ok
deriving DecidableEq, Repr

/-- path_config_token.go, pathConfigTokenWrite (current era).  Step order of
the source: read the existing configuration (fresh zero record when absent),
require the token field, build the client (createClient decodes the token and
keeps its region), decode the token again, self-lookup by the embedded token
name through GetTokenByName, and only after all of that persist the updated
configuration; every rejection happens before the storage write, so the slot
is left exactly as it was. -/
def pathConfigTokenWrite (env : ConfigWriteEnv)
    (store : Option accessTokenConfig) (tokenField : Option String) :
    ConfigWriteResult × Option accessTokenConfig :=
  let conf := store.getD ⟨"", "", ""⟩
  match tokenField with
  | none => (.errResp "Missing token in configuration request", store)
  | some tok =>
    let conf := { conf with token := tok }
    match env.decode conf.token with
    | .error e =>
      (.errResp ("failed to create client: failed to decode tokens: " ++ e), store)
    | .ok _ =>
      match env.decode conf.token with
      | .error e => (.errResp ("failed to decode token: " ++ e), store)
      | .ok decodedToken =>
        match GetTokenByName decodedToken.tokenName decodedToken.metadata.region env.http with
        | .error e => (.errResp ("failed to get token: " ++ e), store)
        | .ok resp =>
          (.ok, some { conf with accessPolicyID := resp.accessPolicyID,
                                 tokenID := resp.id })

/-- Result of a configuration read. -/
inductive ConfigReadResult where
  | errResp (msg : String)
  | ok (token : String) (id : String) (accessPolicyID : String)
deriving DecidableEq, Repr

/-- path_config_token.go, pathConfigTokenRead (current era): an empty slot is
reported with the user-facing not-configured message; otherwise the stored
token, id and access policy id are returned. -/
def pathConfigTokenRead (store : Option accessTokenConfig) : ConfigReadResult :=
  match store with
  | none => .errResp "configuration does not exist. did you configure config/token?"
  | some conf => .ok conf.token conf.tokenID conf.accessPolicyID

/-- A parsed access policy body: the JSON object is modelled as an
association list from field names to opaque values. -/
def PolicyMap := List (String × String)
deriving DecidableEq, Repr

/-- Environment of the create-or-update-access-policy write handler: the JSON
parser for the policy field, the credential codec, and the oracle outcome of
the upstream create-access-policy call. -/
structure PolicyWriteEnv where
  parsePolicy : String → Except String PolicyMap
  decode : String → Except String GrafanaToken
  createPolicyResult : Except String AccessPolicy

/-- Result of an access policy write run. -/
inductive PolicyWriteResult where
  | fault
  | hardErr (msg : String)
  | errResp (msg : String)
  | ok
deriving DecidableEq, Repr

/-- path_access_policies.go, pathAccessPoliciesWrite.  Step order of the
source: reject an empty name; when the policy field is present, parse it into
a map (unmarshal failure is a user-facing error) — when it is absent the map
stays nil and no error branch fires; build the client from the stored root
configuration (nil dereference when the slot is empty); then assign the name
into the map — an assignment into the nil map, a runtime fault — and finally
call the upstream create-access-policy. -/
def pathAccessPoliciesWrite (env : PolicyWriteEnv)
    (rootStore : Option accessTokenConfig) (name : String)
    (policyField : Option String) : PolicyWriteResult :=
  if name = "" then .errResp "missing access policy name"
  else
    let parsed : Except String (Option PolicyMap) :=
      match policyField with
      | none => .ok none
      | some s =>
        match env.parsePolicy s with
        | .error e => .error ("cannot unmarshall policy. raw: " ++ s ++ ", err: " ++ e)
        | .ok m => .ok (some m)
    match parsed with
    | .error msg => .errResp msg
    | .ok policyOpt =>
      match rootStore with
      | none => .fault
      | some conf =>
        match env.decode conf.token with
        | .error e => .hardErr ("failed to decode tokens: " ++ e)
        | .ok _ =>
          match policyOpt with
          | none => .fault
          | some m =>
            let _withName : PolicyMap :=
              m.filter (fun kv => kv.1 != "name") ++ [("name", name)]
            match env.createPolicyResult with
            | .error e =>
              .errResp ("failed to create policy " ++ name ++ " in grafana cloud: " ++ e)
            | .ok _ => .ok

/-- A concrete decoded root credential used to evaluate the handlers. -/
def sampleGrafanaToken : GrafanaToken := ⟨"org-1", "root-token", "key", ⟨"us"⟩⟩

/-- A credential codec that accepts every token, decoding it to the sample
credential. -/
def sampleDecode : String → Except String GrafanaToken :=
  fun _ => .ok sampleGrafanaToken

/-- A credential codec that rejects every token with a base64 decode error. -/
def failDecode : String → Except String GrafanaToken :=
  fun _ => .error "illegal base64 data at input byte 0"

/-- A concrete upstream token record used to evaluate the handlers. -/
def sampleTokenResponse : TokenResponse :=
  ⟨"tok-new", "policy-1", "vault-mount-config-1", "grafana cloud vault mount", 100, "glc_new"⟩

/-- A concrete stored root configuration used to evaluate the handlers. -/
def sampleConfig : accessTokenConfig := ⟨"tok-old", "glc_old", "policy-1"⟩

/-- A concrete upstream response rejecting the caller's credential. -/
def authRejectHttp : HttpResult :=
  .response 401 (.ok ⟨"InvalidCredentials", "Token invalid"⟩) []

/-- A rotation environment in which the mint and the persist succeed and the
upstream deletion of the old credential fails with a transport error. -/
def rotateFailDeleteEnv : RotateEnv :=
  ⟨sampleDecode, .ok sampleTokenResponse, none, some "connection reset by peer", 7, 1000⟩

/-- A concrete upstream token named alpha. -/
def tokA : TokenResponse := ⟨"id-1", "policy-1", "alpha", "alpha", 0, "secret-1"⟩

/-- A second concrete upstream token also named alpha. -/
def tokB : TokenResponse := ⟨"id-2", "policy-1", "alpha", "alpha", 0, "secret-2"⟩

end GrafanaCloud

namespace GrafanaCloud

/-- Auxiliary: after the upstream removes every record whose id matches the
deletion key, the key is no longer contained in the upstream state. -/
theorem contains_filter_ne (l : List String) (k : String) :
    (l.filter (fun x => x != k)).contains k = false := by
  rw [Bool.eq_false_iff]
  intro h
  simp [List.contains] at h

/-- C1: in every rotation run that issues the upstream deletion of the old
credential, the trace is exactly mint, then storage write of the new
configuration, then the deletion — so the new root configuration is
persisted before the deletion is issued — and the final store holds that new
configuration; moreover, when the deletion fails the result is an error
while the stored configuration is still the new one (the write is not rolled
back). -/
theorem rotate_persists_new_config_before_deleting_old
    (env : RotateEnv) (store : Option accessTokenConfig) (d : String)
    (h : RotateEvent.deletedOldToken d ∈ (pathConfigRotateRootUpdate env store).trace) :
    ∃ req newCfg,
      (pathConfigRotateRootUpdate env store).trace
        = [RotateEvent.createdToken req, RotateEvent.persistedConfig newCfg,
           RotateEvent.deletedOldToken d]
      ∧ (pathConfigRotateRootUpdate env store).store = some newCfg
      ∧ (∀ e, env.deleteResult = some e →
          (pathConfigRotateRootUpdate env store).result
            = RotateResult.hardErr ("error deleting old access key: " ++ e)) := by
  rcases store with _ | cfg
  · simp [pathConfigRotateRootUpdate] at h
  rcases hdec : env.decode cfg.token with e | g
  · simp [pathConfigRotateRootUpdate, hdec] at h
  by_cases hc : cfg.accessPolicyID = "" ∨ cfg.token = ""
  · simp [pathConfigRotateRootUpdate, hdec, hc] at h
  rcases hct : env.createTokenResult with e | tok
  · simp [pathConfigRotateRootUpdate, hdec, hc, hct] at h
  rcases hput : env.putResult with _ | pe
  · rcases hdel : env.deleteResult with _ | de
    · have hd : d = cfg.tokenID := by
        simp [pathConfigRotateRootUpdate, hdec, hc, hct, hput, hdel] at h
        exact h
      subst hd
      refine ⟨⟨cfg.accessPolicyID, "vault-mount-config-" ++ toString env.nowNanos,
              "grafana cloud vault mount", env.now + 90 * 24 * 60 * 60⟩,
             ⟨tok.id, tok.token, tok.accessPolicyID⟩, ?_, ?_, ?_⟩
      · simp [pathConfigRotateRootUpdate, hdec, hc, hct, hput, hdel]
      · simp [pathConfigRotateRootUpdate, hdec, hc, hct, hput, hdel]
      · intro e2 he
        exact Option.noConfusion he
    · have hd : d = cfg.tokenID := by
        simp [pathConfigRotateRootUpdate, hdec, hc, hct, hput, hdel] at h
        exact h
      subst hd
      refine ⟨⟨cfg.accessPolicyID, "vault-mount-config-" ++ toString env.nowNanos,
              "grafana cloud vault mount", env.now + 90 * 24 * 60 * 60⟩,
             ⟨tok.id, tok.token, tok.accessPolicyID⟩, ?_, ?_, ?_⟩
      · simp [pathConfigRotateRootUpdate, hdec, hc, hct, hput, hdel]
      · simp [pathConfigRotateRootUpdate, hdec, hc, hct, hput, hdel]
      · intro e2 he
        injection he with he2
        subst he2
        simp [pathConfigRotateRootUpdate, hdec, hc, hct, hput, hdel]
  · simp [pathConfigRotateRootUpdate, hdec, hc, hct, hput] at h

/-- C1 witness: a concrete rotation run whose old-credential deletion fails;
the theorem applied there shows the trace order and the non-rolled-back
store. -/
theorem rotate_persists_before_delete_witness :
    RotateEvent.deletedOldToken "tok-old"
        ∈ (pathConfigRotateRootUpdate rotateFailDeleteEnv (some sampleConfig)).trace
    ∧ ∃ req newCfg,
        (pathConfigRotateRootUpdate rotateFailDeleteEnv (some sampleConfig)).trace
          = [RotateEvent.createdToken req, RotateEvent.persistedConfig newCfg,
             RotateEvent.deletedOldToken "tok-old"]
        ∧ (pathConfigRotateRootUpdate rotateFailDeleteEnv (some sampleConfig)).store
            = some newCfg
        ∧ (∀ e, rotateFailDeleteEnv.deleteResult = some e →
            (pathConfigRotateRootUpdate rotateFailDeleteEnv (some sampleConfig)).result
              = RotateResult.hardErr ("error deleting old access key: " ++ e)) :=
  ⟨by decide,
   rotate_persists_new_config_before_deleting_old rotateFailDeleteEnv
     (some sampleConfig) "tok-old" (by decide)⟩

/-- C2: the rotation handler on a mount with no stored configuration faults
with a nil-configuration dereference inside client construction (b.client
reads the absent configuration and dereferences it), before reaching its own
no-configuration-found error branch, with the store untouched and no upstream
operation issued — it does not return the error the claim describes. -/
theorem rotate_unconfigured_nil_client_fault :
    pathConfigRotateRootUpdate
        ⟨sampleDecode, .ok sampleTokenResponse, none, none, 1, 100⟩ none
      = ⟨.fault, none, []⟩ := rfl

/-- C3: the issue-credential handler on a mount with no stored configuration
faults with a nil-configuration dereference inside client construction
instead of returning the user-facing not-configured error; no upstream call
is attempted (the event trace is empty). -/
theorem credread_unconfigured_nil_client_fault :
    pathCredRead ⟨sampleDecode, .ok sampleTokenResponse, 1, 100, 3600, 7200⟩
        none (some ⟨3600, 7200⟩) (some ⟨⟨"policy-1", "reader"⟩⟩) "reader"
      = (.fault, []) := rfl

/-- C5: revoking a lease whose internal data stores the upstream token id
tok-A and the display name vault-reader-7 passes the NAME to DeleteToken as
the deletion key, so against an upstream holding the record tok-A the delete
answers not-found (which is swallowed as success) and the handler reports
success while the stored token id tok-A is never deleted — the deletion is
not performed with the stored upstream token id as the claim states. -/
theorem revoke_deletes_by_name_not_id :
    secretTokenRevoke sampleDecode (some sampleConfig)
        ⟨some "tok-A", some "vault-reader-7"⟩ ["tok-A"]
      = (.ok, ["tok-A"]) := by
  decide

/-- C6 counterexample: at a concrete stored lease policy, the renew handler
returns the lease with the recomputed TTL and MaxTTL but issues no upstream
operation at all — its event trace is empty, so the upstream update-token-
expiry operation claimed to be called is never invoked. -/
theorem renew_issues_no_expiry_update :
    secretTokenRenew (some ⟨3600, 7200⟩)
      = (⟨3600, 7200⟩, ([] : List RenewEvent)) := rfl

/-- C6 amended: for every stored lease policy, the renew handler recomputes
the lease TTL and MaxTTL from it and returns them, and performs no upstream
call — in particular no update-token-expiry operation appears in its trace. -/
theorem renew_recomputes_ttl_locally (leaseStore : Option configLease)
    (cfg : configLease) (h : leaseStore = some cfg) :
    (secretTokenRenew leaseStore).1.ttl = cfg.ttl ∧
    (secretTokenRenew leaseStore).1.maxTTL = cfg.maxTTL ∧
    (secretTokenRenew leaseStore).2 = [] := by
  subst h
  exact ⟨rfl, rfl, rfl⟩

/-- C4: deleting a token whose upstream record is absent answers not-found,
which performGrafanaAPIOperation classifies as success, so the revoke
succeeds; consequently a second revoke of the same token — after the first
round-trip removed the record — also returns success. -/
theorem revoke_already_absent_succeeds (state : List String)
    (region pathKey : String) :
    (state.contains pathKey = false →
      (revokeUpstream state region pathKey).1 = .ok ())
    ∧ (revokeUpstream (revokeUpstream state region pathKey).2 region pathKey).1
        = .ok () := by
  constructor
  · intro h
    show DeleteToken pathKey region
        (upstreamDeleteResponse (state.contains pathKey)) = .ok ()
    rw [h]
    rfl
  · show DeleteToken pathKey region
        (upstreamDeleteResponse
          ((state.filter (fun x => x != pathKey)).contains pathKey)) = .ok ()
    rw [contains_filter_ne]
    rfl

/-- C4 witness: the idempotence statement evaluated on a concrete upstream
state holding one live token record. -/
theorem revoke_already_absent_succeeds_witness :
    (["tok-A"] : List String).contains "tok-B" = false
    ∧ (revokeUpstream ["tok-A"] "us" "tok-B").1 = .ok ()
    ∧ (revokeUpstream (revokeUpstream ["tok-A"] "us" "tok-A").2 "us" "tok-A").1
        = .ok () :=
  ⟨by decide, (revoke_already_absent_succeeds ["tok-A"] "us" "tok-B").1 (by decide),
   (revoke_already_absent_succeeds ["tok-A"] "us" "tok-A").2⟩

/-- Auxiliary evaluation: GetTokenByName on a successful response holding no
items is the explicit count error. -/
theorem getTokenByName_nil (name region : String)
    (eb : Except String GrafanaAPIError) :
    GetTokenByName name region (.response 200 eb [])
      = .error ("found an unexpected number of tokens with name " ++ name) := rfl

/-- Auxiliary evaluation: GetTokenByName on a successful response holding
exactly one item returns that item. -/
theorem getTokenByName_singleton (name region : String)
    (eb : Except String GrafanaAPIError) (t : TokenResponse) :
    GetTokenByName name region (.response 200 eb [t]) = .ok t := rfl

/-- Auxiliary evaluation: GetTokenByName on a successful response holding two
or more items is the explicit count error. -/
theorem getTokenByName_multi (name region : String)
    (eb : Except String GrafanaAPIError) (t0 t1 : TokenResponse)
    (rest : List TokenResponse) :
    GetTokenByName name region (.response 200 eb (t0 :: t1 :: rest))
      = .error ("found an unexpected number of tokens with name " ++ name) := rfl

/-- C7: with the upstream answering the by-name query with exactly the
tokens carrying the requested name, GetTokenByName returns a token only when
that filtered list is the single matching token (whose name is the requested
one), and returns the explicit count error whenever the number of matches
differs from one — never an arbitrary pick. -/
theorem getTokenByName_requires_unique_match (upstream : List TokenResponse)
    (name region : String) :
    (∀ t, GetTokenByName name region
        (.response 200 (.ok ⟨"", ""⟩) (upstream.filter (fun t2 => t2.name == name)))
          = .ok t →
      upstream.filter (fun t2 => t2.name == name) = [t] ∧ t.name = name)
    ∧ ((upstream.filter (fun t2 => t2.name == name)).length ≠ 1 →
      GetTokenByName name region
          (.response 200 (.ok ⟨"", ""⟩) (upstream.filter (fun t2 => t2.name == name)))
        = .error ("found an unexpected number of tokens with name " ++ name)) := by
  constructor
  · intro t h
    rcases hI : upstream.filter (fun t2 => t2.name == name) with _ | ⟨t0, rest⟩
    · rw [hI, getTokenByName_nil] at h
      cases h
    · rcases rest with _ | ⟨t1, rest2⟩
      · rw [hI, getTokenByName_singleton] at h
        injection h with h0
        refine ⟨?_, ?_⟩
        · rw [hI, h0]
        · have hmem : t0 ∈ upstream.filter (fun t2 => t2.name == name) := by
            rw [hI]
            exact List.mem_singleton.mpr rfl
          have hb := (List.mem_filter.mp hmem).2
          rw [← h0]
          simpa using hb
      · rw [hI, getTokenByName_multi] at h
        cases h
  · intro hlen
    rcases hI : upstream.filter (fun t2 => t2.name == name) with _ | ⟨t0, rest⟩
    · rw [hI, getTokenByName_nil]
    · rcases rest with _ | ⟨t1, rest2⟩
      · rw [hI] at hlen
        simp at hlen
      · rw [hI, getTokenByName_multi]

/-- C7 witness: the uniqueness statement evaluated on a one-match upstream
and on a two-match upstream. -/
theorem getTokenByName_requires_unique_match_witness :
    ([tokA].filter (fun t2 => t2.name == "alpha") = [tokA] ∧ tokA.name = "alpha")
    ∧ GetTokenByName "alpha" "us"
        (.response 200 (.ok ⟨"", ""⟩)
          ([tokA, tokB].filter (fun t2 => t2.name == "alpha")))
      = .error ("found an unexpected number of tokens with name " ++ "alpha") :=
  ⟨(getTokenByName_requires_unique_match [tokA] "alpha" "us").1 tokA (by decide),
   (getTokenByName_requires_unique_match [tokA, tokB] "alpha" "us").2 (by decide)⟩

/-- C6 amended, witness: the amended statement evaluated at a concrete
stored lease policy. -/
theorem renew_recomputes_ttl_locally_witness :
    (secretTokenRenew (some ⟨1800, 3600⟩)).1.ttl = 1800 ∧
    (secretTokenRenew (some ⟨1800, 3600⟩)).1.maxTTL = 3600 ∧
    (secretTokenRenew (some ⟨1800, 3600⟩)).2 = [] :=
  renew_recomputes_ttl_locally (some ⟨1800, 3600⟩) ⟨1800, 3600⟩ rfl

/-- C8: a configure-root-credential write whose token fails decoding, or
whose credential the upstream self-lookup rejects, is rejected with a
user-facing error carrying the decode error or the upstream code/message,
and the configuration slot is left exactly as it was — in particular, on a
previously unconfigured mount a subsequent configuration read still reports
the not-configured state. -/
theorem config_write_rejected_leaves_store_unchanged
    (env : ConfigWriteEnv) (store : Option accessTokenConfig) (tok : String) :
    (∀ e, env.decode tok = .error e →
        pathConfigTokenWrite env store (some tok)
          = (.errResp ("failed to create client: failed to decode tokens: " ++ e),
             store))
    ∧ (∀ g e, env.decode tok = .ok g →
        GetTokenByName g.tokenName g.metadata.region env.http = .error e →
        pathConfigTokenWrite env store (some tok)
          = (.errResp ("failed to get token: " ++ e), store))
    ∧ (store = none →
        ((∃ e, env.decode tok = .error e)
          ∨ (∃ g e, env.decode tok = .ok g
               ∧ GetTokenByName g.tokenName g.metadata.region env.http = .error e)) →
        pathConfigTokenRead (pathConfigTokenWrite env store (some tok)).2
          = .errResp "configuration does not exist. did you configure config/token?") := by
  refine ⟨?_, ?_, ?_⟩
  · intro e he
    simp [pathConfigTokenWrite, he]
  · intro g e hg hget
    simp [pathConfigTokenWrite, hg, hget]
  · intro hstore hcase
    subst hstore
    rcases hcase with ⟨e, he⟩ | ⟨g, e, hg, hget⟩
    · simp [pathConfigTokenWrite, he, pathConfigTokenRead]
    · simp [pathConfigTokenWrite, hg, hget, pathConfigTokenRead]

/-- C8 witness: concrete rejected writes — one with an undecodable token, one
with a credential the upstream rejects with InvalidCredentials — both leave
the empty slot empty, and the read afterwards still reports not-configured. -/
theorem config_write_rejected_witness :
    pathConfigTokenWrite ⟨failDecode, authRejectHttp⟩ none (some "not-base64")
      = (.errResp ("failed to create client: failed to decode tokens: "
          ++ "illegal base64 data at input byte 0"), none)
    ∧ pathConfigTokenWrite ⟨sampleDecode, authRejectHttp⟩ none (some "glc_abc")
      = (.errResp ("failed to get token: "
          ++ "error returned from grafana at url "
          ++ tokensQueryURL "root-token" "us"
          ++ " code: InvalidCredentials, err: Token invalid"), none)
    ∧ pathConfigTokenRead
        (pathConfigTokenWrite ⟨failDecode, authRejectHttp⟩ none (some "not-base64")).2
      = .errResp "configuration does not exist. did you configure config/token?" :=
  ⟨(config_write_rejected_leaves_store_unchanged
      ⟨failDecode, authRejectHttp⟩ none "not-base64").1 _ rfl,
   (config_write_rejected_leaves_store_unchanged
      ⟨sampleDecode, authRejectHttp⟩ none "glc_abc").2.1 sampleGrafanaToken _ rfl rfl,
   (config_write_rejected_leaves_store_unchanged
      ⟨failDecode, authRejectHttp⟩ none "not-base64").2.2 rfl (Or.inl ⟨_, rfl⟩)⟩

/-- Auxiliary: bounds of the spec-modelled lease calculation — a computed
effective TTL is positive and no larger than the effective maximum. -/
theorem calculateTTL_ok_bounds (d m ttl maxT t : Int)
    (h : calculateTTL d m ttl maxT = .ok t) :
    0 < t ∧ t ≤ (if 0 < maxT ∧ maxT < m then maxT else m) := by
  simp only [calculateTTL] at h
  split_ifs at h ⊢ <;>
    first
      | exact Except.noConfusion h
      | (injection h with h0
         subst h0
         exact ⟨lt_min (by omega) (by omega), min_le_right _ _⟩)

/-- Auxiliary: the spec-modelled lease calculation rejects a zero TTL (with
no positive default to fall back to) with an error. -/
theorem calculateTTL_zero_rejected (d m maxT : Int) (hd : d ≤ 0) :
    ∃ e, calculateTTL d m 0 maxT = .error e := by
  simp only [calculateTTL]
  split_ifs <;>
    first
      | exact ⟨_, rfl⟩
      | (exfalso; omega)

/-- C9: an effective TTL computed by the lease policy is never negative
(it is positive) and never exceeds the effective MaxTTL; a zero TTL is
rejected with an error instead of issuing an already-expired token; and
every successful issue-credential run mints its token with an expiry between
now and now plus the effective MaxTTL. -/
theorem issued_expiry_within_bounds :
    (∀ d m ttl maxT t, calculateTTL d m ttl maxT = .ok t →
        0 < t ∧ t ≤ (if 0 < maxT ∧ maxT < m then maxT else m))
    ∧ (∀ d m maxT, d ≤ 0 → ∃ e, calculateTTL d m 0 maxT = .error e)
    ∧ (∀ (env : CredEnv) (store : Option accessTokenConfig)
         (leaseStore : Option configLease) (policyStore : Option accessPolicyEntry)
         (name : String) (secret : CredSecret) (req : CreateTokenRequest),
        (pathCredRead env store leaseStore policyStore name).1 = .ok secret →
        (pathCredRead env store leaseStore policyStore name).2
          = [CredEvent.createdToken req] →
        env.now ≤ req.expiresAt
        ∧ req.expiresAt ≤ env.now +
            (if 0 < (leaseStore.getD ⟨0, 0⟩).maxTTL
                ∧ (leaseStore.getD ⟨0, 0⟩).maxTTL < env.maxLeaseTTL
             then (leaseStore.getD ⟨0, 0⟩).maxTTL else env.maxLeaseTTL)) := by
  refine ⟨calculateTTL_ok_bounds, calculateTTL_zero_rejected, ?_⟩
  intro env store leaseStore policyStore name secret req h1 h2
  rcases store with _ | conf
  · simp [pathCredRead] at h1
  rcases hdec : env.decode conf.token with e | g
  · simp [pathCredRead, hdec] at h1
  rcases policyStore with _ | entry
  · simp [pathCredRead, hdec] at h1
  rcases hcalc : calculateTTL env.defaultLeaseTTL env.maxLeaseTTL
      (leaseStore.getD ⟨0, 0⟩).ttl (leaseStore.getD ⟨0, 0⟩).maxTTL with e | t
  · simp [pathCredRead, hdec, hcalc] at h1
  rcases hct : env.createTokenResult with e | token
  · simp [pathCredRead, hdec, hcalc, hct] at h1
  have hreq : req.expiresAt = env.now + t := by
    simp [pathCredRead, hdec, hcalc, hct] at h2
    rw [← h2]
  have hb := calculateTTL_ok_bounds _ _ _ _ _ hcalc
  rw [hreq]
  constructor
  · exact le_add_of_nonneg_right (le_of_lt hb.1)
  · exact add_le_add_left hb.2 env.now

/-- C9 witness: the TTL bounds evaluated at concrete policy values, and a
concrete successful issuance whose minted expiry lies within the window. -/
theorem issued_expiry_within_bounds_witness :
    calculateTTL 3600 86400 600 7200 = .ok 600
    ∧ (0 < (600 : Int)
        ∧ (600 : Int) ≤ (if 0 < (7200 : Int) ∧ (7200 : Int) < 86400 then 7200 else 86400))
    ∧ (∃ e, calculateTTL 0 86400 0 7200 = .error e)
    ∧ ((1000 : Int) ≤ (1600 : Int)
        ∧ (1600 : Int) ≤ 1000 +
          (if 0 < ((some (⟨600, 7200⟩ : configLease)).getD ⟨0, 0⟩).maxTTL
              ∧ ((some (⟨600, 7200⟩ : configLease)).getD ⟨0, 0⟩).maxTTL < 86400
           then ((some (⟨600, 7200⟩ : configLease)).getD ⟨0, 0⟩).maxTTL else 86400)) := by
  have happ := issued_expiry_within_bounds.2.2
      ⟨sampleDecode, .ok sampleTokenResponse, 7, 1000, 3600, 86400⟩
      (some sampleConfig) (some ⟨600, 7200⟩) (some ⟨⟨"policy-1", "reader"⟩⟩)
      "reader"
      ⟨"tok-new", "policy-1", "glc_new", "vault-mount-config-1", 600, 7200, false⟩
      ⟨"policy-1", createTokenName "reader" 7, createTokenName "reader" 7, 1600⟩
      rfl rfl
  exact ⟨by decide,
         issued_expiry_within_bounds.1 3600 86400 600 7200 600 (by decide),
         issued_expiry_within_bounds.2.1 0 86400 7200 (by decide),
         happ⟩

/-- C10: a create-or-update-access-policy write that omits the policy field
leaves the policy map nil (no error branch fires for the absent field) and
the later name assignment into that nil map is a runtime fault: with a
nonempty name and a usable root configuration, the handler aborts with the
fault instead of a user-facing missing-policy error. -/
theorem policy_write_absent_policy_field_faults
    (env : PolicyWriteEnv) (rootStore : Option accessTokenConfig)
    (name : String) (conf : accessTokenConfig) (g : GrafanaToken)
    (hname : name ≠ "") (hstore : rootStore = some conf)
    (hdec : env.decode conf.token = .ok g) :
    pathAccessPoliciesWrite env rootStore name none = .fault := by
  subst hstore
  simp [pathAccessPoliciesWrite, hname, hdec]

/-- C10 witness: the fault evaluated on a concrete request with no policy
field. -/
theorem policy_write_absent_policy_field_faults_witness :
    ("stack-readers" : String) ≠ ""
    ∧ sampleDecode sampleConfig.token = .ok sampleGrafanaToken
    ∧ pathAccessPoliciesWrite
        ⟨fun s => .error s, sampleDecode, .ok ⟨"ap-1", "stack-readers"⟩⟩
        (some sampleConfig) "stack-readers" none = .fault :=
  ⟨by decide, rfl,
   policy_write_absent_policy_field_faults
     ⟨fun s => .error s, sampleDecode, .ok ⟨"ap-1", "stack-readers"⟩⟩
     (some sampleConfig) "stack-readers" sampleConfig sampleGrafanaToken
     (by decide) rfl rfl⟩

end GrafanaCloud
